import Mathlib

/-!
Verification development for `src/TextToGLSLText.py`, a line-oriented
compiler from a small text-markup language to GLSL drawing statements.

The Python source is shallowly embedded below.  Lines are lists of
characters; Python exceptions (`ValueError`) become an explicit `Err`
inductive carried by `Except`.  Python floats parsed from decimal
literals of the form `\d+(\.\d+)?` are embedded as exact decimals
(`Dec`); Python's float `repr` is modelled as decimal normalisation
(drop trailing fractional zeros, print `.0` for integral values), which
agrees with CPython on every literal short enough to round-trip — all
literals occurring in this development.  `str.isalnum` / `str.isalpha`
and regex `\d`, `\s` are modelled at ASCII precision, which is exact on
the validator-accepted character set.  The regular expressions of the
source are compiled by hand into deterministic parsers; the grammars
involved are such that greedy matching without backtracking coincides
with Python `re.match` (a digit run can never be re-split, since every
context following a digit group expects a non-digit character).
-/

namespace TextToGLSL

abbrev Line := List Char

/-- Whitespace characters recognised by Python `str.strip()` and by the
regex class `\s`, at ASCII precision. -/
def pyWhitespace (c : Char) : Bool :=
  c == ' ' || c == '\t' || c == '\n' || c == '\r' || c == '\x0b' || c == '\x0c'

/-- Python `line.strip()`. -/
def strip (l : Line) : Line :=
  ((l.dropWhile fun c => pyWhitespace c).reverse.dropWhile fun c => pyWhitespace c).reverse

/-- Python `input_text.split('\n')`. -/
def splitNl : List Char → List Line
  | [] => [[]]
  | c :: cs =>
    if c = '\n' then [] :: splitNl cs
    else
      match splitNl cs with
      | [] => [[c]]
      | l :: ls => (c :: l) :: ls

/-- Boolean prefix test, mirroring Python `str.startswith`. -/
def startsWithL : Line → Line → Bool
  | [], _ => true
  | _ :: _, [] => false
  | p :: ps, c :: cs => p == c && startsWithL ps cs

/-- Consume an expected literal prefix, returning the rest of the line;
used to embed the fixed keyword part of each regex. -/
def dropPrefixQ : Line → Line → Option Line
  | [], l => some l
  | _ :: _, [] => none
  | p :: ps, c :: cs => if c = p then dropPrefixQ ps cs else none

/-- The double-quote character (written via its code point). -/
def quoteChar : Char := Char.ofNat 34

/-- Embeds the Python dict `CHAR_TO_SPECIAL` (maps a character to the
name of its special token). -/
def CHAR_TO_SPECIAL : List (Char × String) :=
  [(' ', "space"), ('.', "dot"), ('-', "minus"), (',', "comma"),
   (':', "colon"), ('_', "under"), (quoteChar, "quote"), ('!', "exclm"),
   ('>', "gt"), ('<', "lt"), ('[', "opsqr"), (']', "clsqr"),
   ('(', "opprn"), (')', "clprn"), ('█', "block"), ('©', "copyr"),
   ('=', "equal"), ('+', "plus"), ('/', "slash")]

/-- Embeds the Python dict `SPECIAL_CHARS` (maps a special-token name to
the emitted token identifier). -/
def SPECIAL_CHARS : List (String × String) :=
  [("space", "_space"), ("under", "_under"), ("quote", "_quote"),
   ("exclm", "_exclm"), ("gt", "_gt"), ("lt", "_lt"),
   ("opsqr", "_opsqr"), ("clsqr", "_clsqr"), ("opprn", "_opprn"),
   ("clprn", "_clprn"), ("block", "_block"), ("copyr", "_copyr"),
   ("equal", "_equal"), ("plus", "_plus"), ("dot", "_dot"),
   ("minus", "_minus"), ("comma", "_comma"), ("colon", "_colon"),
   ("slash", "_slash")]

/-- Embeds `is_valid_char(char, is_command_line)` (source lines 146-159):
a character is accepted when it is alphanumeric, a key of
`CHAR_TO_SPECIAL`, or — on a command line — a parenthesis. -/
def is_valid_char (c : Char) (isCmdLine : Bool) : Bool :=
  c.isAlphanum || (CHAR_TO_SPECIAL.lookup c).isSome ||
    (isCmdLine && (c == '(' || c == ')'))

/-- The command-line test of `validate_text` (source lines 193-201).  It
is applied to the raw, untrimmed line. -/
def is_command_line (l : Line) : Bool :=
  startsWithL "start(".data l || startsWithL "vec3(".data l ||
    l == "end()".data || startsWithL "darken(".data l ||
    startsWithL "Title(".data l || startsWithL "Text(".data l ||
    startsWithL "Footnote(".data l

/-- Exact decimal value of a matched group `\d+(?:\.\d+)?`; this embeds
the Python float produced by `float(group)`. -/
structure Dec where
  intPart : Nat
  fracDigits : List Nat
deriving DecidableEq

/-- Embedded error taxonomy: each constructor corresponds to one
`raise ValueError(...)` site of the source (the payload is the data
interpolated into the Python message). -/
inductive Err where
  | illegalChar (lineNum : Nat) (c : Char)
  | darkenRange (d : Dec)
  | darkenFormat
  | misplacedDarken (lineNum : Nat)
  | textOutsideSection (lineNum : Nat)
  | unclosedSection
deriving DecidableEq

/-- First character of a line rejected by `is_valid_char`, if any;
Python raises on the first offending character of the line. -/
def firstInvalid (l : Line) : Option Char :=
  l.find? fun c => !(is_valid_char c (is_command_line l))

/-- The loop body of `validate_text` (source lines 191-205), with `idx`
the 1-based number of the first line of the remaining list. -/
def validate_from (idx : Nat) : List Line → Except Err Unit
  | [] => .ok ()
  | l :: rest =>
    match firstInvalid l with
    | some c => .error (.illegalChar idx c)
    | none => validate_from (idx + 1) rest

/-- Embeds `validate_text` (source lines 181-205). -/
def validate_text (lines : List Line) : Except Err Unit :=
  validate_from 1 lines

/-- Embeds `convert_to_chars` (source lines 161-179). -/
def convert_to_chars (l : Line) : List String :=
  l.map fun c =>
    if c.isAlpha then "_" ++ String.singleton c
    else
      match CHAR_TO_SPECIAL.lookup c with
      | some name => (SPECIAL_CHARS.lookup name).getD ""
      | none => "_" ++ String.singleton c

/-- Value of a digit run, most significant digit first. -/
def digitsVal (ds : List Nat) : Nat :=
  ds.foldl (fun a d => a * 10 + d) 0

/-- Greedy parse of the regex `\d+`-style digit run at the head of the
line, returning the digits and the rest. -/
def takeDigits : Line → (List Nat × Line)
  | [] => ([], [])
  | c :: cs =>
    if c.isDigit then
      let r := takeDigits cs
      ((c.toNat - 48) :: r.1, r.2)
    else ([], c :: cs)

/-- Parse `(\d+)` as a `Nat` (Python `int(...)` of the group). -/
def parseNat (l : Line) : Option (Nat × Line) :=
  match takeDigits l with
  | ([], _) => none
  | (ds, r) => some (digitsVal ds, r)

/-- Parse `(\d+(?:\.\d+)?)` at the head of the line.  Mirrors the regex:
if a dot is present but not followed by a digit, the optional fractional
group is skipped and the dot is left unconsumed. -/
def parseDec (l : Line) : Option (Dec × Line) :=
  match takeDigits l with
  | ([], _) => none
  | (ds, r) =>
    match r with
    | '.' :: r2 =>
      match takeDigits r2 with
      | ([], _) => some (⟨digitsVal ds, []⟩, r)
      | (fs, r3) => some (⟨digitsVal ds, fs⟩, r3)
    | _ => some (⟨digitsVal ds, []⟩, r)

/-- Numerator of the decimal over `den`. -/
def Dec.num (d : Dec) : Int :=
  (d.intPart : Int) * (10 : Int) ^ d.fracDigits.length + (digitsVal d.fracDigits : Int)

/-- Denominator of the decimal (a power of ten). -/
def Dec.den (d : Dec) : Int :=
  (10 : Int) ^ d.fracDigits.length

/-- Rational value of the embedded decimal. -/
def Dec.val (d : Dec) : ℚ := (d.num : ℚ) / (d.den : ℚ)

/-- Executable form of the range test `darkness < 0.0 or darkness > 1.0`
of `process_darken_command`; `darkenOutOfRange_iff` below proves it
equal to the value-level condition. -/
def darkenOutOfRange (d : Dec) : Bool :=
  d.num < 0 || d.den < d.num

/-- Digit list rendered as characters. -/
def digitsStr (ds : List Nat) : String :=
  String.mk (ds.map fun d => Char.ofNat (48 + d))

/-- Drop trailing zero digits of the fractional part. -/
def dropTrailingZeros (ds : List Nat) : List Nat :=
  (ds.reverse.dropWhile fun d => d == 0).reverse

/-- Python `repr` of the embedded float, for the decimal literals in
scope: trailing fractional zeros are dropped and integral values print
with a single `.0`. -/
def decFmt (d : Dec) : String :=
  let f := dropTrailingZeros d.fracDigits
  if f.isEmpty then toString d.intPart ++ ".0"
  else toString d.intPart ++ "." ++ digitsStr f

/-- Embeds `START_PATTERN.match` (prefix match of
`start\((\d+),\s*(\d+),\s*(\d+)\)`), returning the three groups. -/
def matchStart (l : Line) : Option (Nat × Nat × Nat) := do
  let r1 ← dropPrefixQ "start(".data l
  let (a, r2) ← parseNat r1
  let r3 ← dropPrefixQ [','] r2
  let r4 := r3.dropWhile fun c => pyWhitespace c
  let (b, r5) ← parseNat r4
  let r6 ← dropPrefixQ [','] r5
  let r7 := r6.dropWhile fun c => pyWhitespace c
  let (c, r8) ← parseNat r7
  let _ ← dropPrefixQ [')'] r8
  some (a, b, c)

/-- Innermost optional group `(?:,\s*(\d+(?:\.\d+)?))?` of the colour
pattern. -/
def colorTail2 (t4 : Line) : Option (Dec × Line) := do
  let u1 ← dropPrefixQ [','] t4
  let u2 := u1.dropWhile fun c => pyWhitespace c
  let (b, u3) ← parseDec u2
  some (b, u3)

/-- Middle optional group `(?:,\s*(\d+(?:\.\d+)?)\s*(?:...)?)?` of the
colour pattern. -/
def colorTail1 (r3 : Line) : Option (Dec × Option Dec × Line) := do
  let t1 ← dropPrefixQ [','] r3
  let t2 := t1.dropWhile fun c => pyWhitespace c
  let (g, t3) ← parseDec t2
  let t4 := t3.dropWhile fun c => pyWhitespace c
  match colorTail2 t4 with
  | some (b, u3) => some (g, some b, u3)
  | none => some (g, none, t4)

/-- Embeds `COLOR_PATTERN.match` (prefix match of
`vec3\((\d+(?:\.\d+)?)\s*(?:,\s*(\d+(?:\.\d+)?)\s*(?:,\s*(\d+(?:\.\d+)?))?)?\)`),
returning the three groups, the optional ones as `Option`. -/
def matchColor (l : Line) : Option (Dec × Option Dec × Option Dec) := do
  let r1 ← dropPrefixQ "vec3(".data l
  let (r, r2) ← parseDec r1
  let r3 := r2.dropWhile fun c => pyWhitespace c
  match colorTail1 r3 with
  | some (g, bOpt, rest) => do
    let _ ← dropPrefixQ [')'] rest
    some (r, some g, bOpt)
  | none => do
    let _ ← dropPrefixQ [')'] r3
    some (r, none, none)

/-- Argument part `(?:(\d+)(?:,\s*(\d+)(?:,\s*(\d+))?)?)?` shared by the
`Title`, `Text` and `Footnote` patterns; returns the groups and the
rest of the line (an optional group that fails consumes nothing). -/
def triArgs (r1 : Line) : (Option Nat × Option Nat × Option Nat) × Line :=
  match parseNat r1 with
  | none => ((none, none, none), r1)
  | some (a, t1) =>
    match (do
        let u1 ← dropPrefixQ [','] t1
        let u2 := u1.dropWhile fun c => pyWhitespace c
        parseNat u2 : Option (Nat × Line)) with
    | none => ((some a, none, none), t1)
    | some (b, u3) =>
      match (do
          let v1 ← dropPrefixQ [','] u3
          let v2 := v1.dropWhile fun c => pyWhitespace c
          parseNat v2 : Option (Nat × Line)) with
      | none => ((some a, some b, none), u3)
      | some (c, v3) => ((some a, some b, some c), v3)

/-- Embeds the shared shape of `TITLE_PATTERN` / `TEXT_PATTERN` /
`FOOTNOTE_PATTERN` prefix matches, parameterised by the keyword
(including the opening parenthesis). -/
def matchTri (kw : Line) (l : Line) : Option (Option Nat × Option Nat × Option Nat) := do
  let r1 ← dropPrefixQ kw l
  let res := triArgs r1
  let _ ← dropPrefixQ [')'] res.2
  some res.1

/-- Embeds `DARKEN_PATTERN.match` (prefix match of
`darken\((\d+(?:\.\d+)?)\)`). -/
def matchDarken (l : Line) : Option Dec := do
  let r1 ← dropPrefixQ "darken(".data l
  let (d, r2) ← parseDec r1
  let _ ← dropPrefixQ [')'] r2
  some d

/-- Constant `EMPTY_LINE_RESULT` of the source. -/
def EMPTY_LINE_RESULT : String := "    printLine();"

/-- Constant `SECTION_END_RESULT` of the source. -/
def SECTION_END_RESULT : String := "endText(color.rgb);"

/-- Constant `DEFAULT_DARKNESS = 0.65` of the source. -/
def DEFAULT_DARKNESS : Dec := ⟨0, [6, 5]⟩

/-- Template `beginTextM({size}, vec2({pos_x}, {pos_y}));`. -/
def beginTextStr (size x y : Nat) : String :=
  "beginTextM(" ++ toString size ++ ", vec2(" ++ toString x ++ ", " ++ toString y ++ "));"

/-- Template `color.rgb = mix(color.rgb, vec3(0.0), {darkness});`. -/
def darkenStr (d : Dec) : String :=
  "color.rgb = mix(color.rgb, vec3(0.0), " ++ decFmt d ++ ");"

/-- Template `    text.fgCol = vec4({r}, {g}, {b}, 1.0);`. -/
def colorStr (r g b : Dec) : String :=
  "    text.fgCol = vec4(" ++ decFmt r ++ ", " ++ decFmt g ++ ", " ++ decFmt b ++ ", 1.0);"

/-- Template `    printString(({tokens}));`. -/
def printStringStr (l : Line) : String :=
  "    printString((" ++ String.intercalate ", " (convert_to_chars l) ++ "));"

/-- Embeds `process_darken_command` (source lines 207-234): the pattern
is tried on the stripped line first, then the exact no-argument form;
anything else is the malformed-format error. -/
def process_darken_command (l : Line) : Except Err String :=
  match matchDarken (strip l) with
  | some d =>
    if darkenOutOfRange d then .error (.darkenRange d)
    else .ok (darkenStr d)
  | none =>
    if strip l = "darken()".data then .ok (darkenStr DEFAULT_DARKNESS)
    else .error .darkenFormat

/-- Embeds `process_start_command` (source lines 236-252). -/
def process_start_command (l : Line) : Option String :=
  (matchStart l).map fun t => beginTextStr t.1 t.2.1 t.2.2

/-- Embeds `process_color_command` (source lines 254-270): a missing
`g` or `b` group falls back to `r` (the source reads `else r` in both
positions). -/
def process_color_command (l : Line) : Option String :=
  (matchColor l).map fun t => colorStr t.1 (t.2.1.getD t.1) (t.2.2.getD t.1)

/-- Embeds `process_title_command` (source lines 272-288); defaults
size 8, x 6, y 10. -/
def process_title_command (l : Line) : Option String :=
  (matchTri "Title(".data l).map fun t =>
    beginTextStr (t.1.getD 8) (t.2.1.getD 6) (t.2.2.getD 10)

/-- Embeds `process_text_command` (source lines 290-306); defaults
size 4, x 15, y 36. -/
def process_text_command (l : Line) : Option String :=
  (matchTri "Text(".data l).map fun t =>
    beginTextStr (t.1.getD 4) (t.2.1.getD 15) (t.2.2.getD 36)

/-- Embeds `process_footnote_command` (source lines 308-333); defaults
size 2, x 30, and a y computed as `prev_y + 15 * line_count + 36` when
the third group is absent. -/
def process_footnote_command (l : Line) (prevY lineCount : Nat) : Option String :=
  (matchTri "Footnote(".data l).map fun t =>
    beginTextStr (t.1.getD 2) (t.2.1.getD 30) (t.2.2.getD (prevY + 15 * lineCount + 36))

/-- Embeds `process_text_line` (source lines 335-352).  The Python
function returns a bare string for the empty line and a two-element
list otherwise; the driver appends either way, so both shapes are
returned here as lists of appended statements. -/
def process_text_line (l : Line) : List String :=
  if l = [] then [EMPTY_LINE_RESULT]
  else [printStringStr l, EMPTY_LINE_RESULT]

/-- The mutable locals of the `parse_and_convert` loop (source lines
370-373): the accumulated output, the `in_section` flag, and the
`prev_y` / `line_count` pair used by a later `Footnote` default. -/
structure CState where
  output : List String
  inSection : Bool
  prevY : Nat
  lineCount : Nat
deriving DecidableEq

/-- Initial compiler state (source lines 370-373). -/
def initState : CState := ⟨[], false, 0, 0⟩

/-- The start-family cascade of the driver (source lines 396-427):
`start` first, then `Title`, `Text`, `Footnote`, each returning the
emitted statement together with the section's `current_y`.  The source
recomputes `current_y` by re-matching the same pattern; the match being
deterministic, both values are read off one match here. -/
def startFamily (l : Line) (prevY lineCount : Nat) : Option (String × Nat) :=
  match matchStart l with
  | some (sz, x, y) => some (beginTextStr sz x y, y)
  | none =>
    match matchTri "Title(".data l with
    | some (a, b, c) => some (beginTextStr (a.getD 8) (b.getD 6) (c.getD 10), c.getD 10)
    | none =>
      match matchTri "Text(".data l with
      | some (a, b, c) => some (beginTextStr (a.getD 4) (b.getD 15) (c.getD 36), c.getD 36)
      | none =>
        match matchTri "Footnote(".data l with
        | some (a, b, c) =>
          let y := c.getD (prevY + 15 * lineCount + 36)
          some (beginTextStr (a.getD 2) (b.getD 30) y, y)
        | none => none

/-- One iteration of the driver loop (source lines 382-463) on the line
at 0-based index `idx` of the post-darken line list. -/
def stepLine (s : CState) (idx : Nat) (rawLine : Line) : Except Err CState :=
  let line := strip rawLine
  if startsWithL "darken(".data line then .error (.misplacedDarken (idx + 1))
  else if line = "end()".data then
    .ok { s with output := s.output ++ [SECTION_END_RESULT], inSection := false }
  else
    match startFamily line s.prevY s.lineCount with
    | some (res, y) =>
      .ok ⟨s.output ++ [res], true, y, 0⟩
    | none =>
      match process_color_command line with
      | some c =>
        if s.inSection then .ok { s with output := s.output ++ [c] }
        else .error (.textOutsideSection (idx + 1))
      | none =>
        if s.inSection then
          if line = [] then
            .ok { s with output := s.output ++ [EMPTY_LINE_RESULT],
                         lineCount := s.lineCount + 1 }
          else
            .ok { s with output := s.output ++ process_text_line line,
                         lineCount := s.lineCount + 1 }
        else if line = [] then .ok s
        else .error (.textOutsideSection (idx + 1))

/-- The driver loop over the remaining lines. -/
def runLines (s : CState) (idx : Nat) : List Line → Except Err CState
  | [] => .ok s
  | l :: rest =>
    match stepLine s idx l with
    | .error e => .error e
    | .ok s' => runLines s' (idx + 1) rest

/-- The first-line `darken` handling of the driver (source lines
376-379): when the stripped first line starts with `darken(`, it is
processed and removed from the list. -/
def darkenPhase (lines : List Line) : Except Err (List String × List Line) :=
  match lines with
  | [] => .ok ([], lines)
  | l0 :: rest =>
    if startsWithL "darken(".data (strip l0) then
      match process_darken_command l0 with
      | .error e => .error e
      | .ok r => .ok ([r], rest)
    else .ok ([], lines)

/-- Embeds `parse_and_convert` (source lines 354-469) on an
already-split line list: validate, handle a first-line darken, run the
loop, and reject a dangling open section. -/
def parse_core (lines : List Line) : Except Err String :=
  match validate_text lines with
  | .error e => .error e
  | .ok _ =>
    match darkenPhase lines with
    | .error e => .error e
    | .ok (out0, rest) =>
      match runLines ⟨out0, false, 0, 0⟩ 0 rest with
      | .error e => .error e
      | .ok s =>
        if s.inSection then .error .unclosedSection
        else .ok (String.intercalate "\n" s.output)

/-- Embeds `parse_and_convert` on the raw input text. -/
def parse_and_convert (input : String) : Except Err String :=
  parse_core (splitNl input.data)

/-- Modelled from the spec (section 4.1), for refutation of claim C2
only: the command-line classifier as the specification words it, on the
TRIMMED form of the line.  The source applies its tests to the raw
line instead. -/
def specIsCommandLine (l : Line) : Bool :=
  startsWithL "darken(".data (strip l) || startsWithL "start(".data (strip l) ||
    startsWithL "vec3(".data (strip l) || startsWithL "Title(".data (strip l) ||
    startsWithL "Text(".data (strip l) || startsWithL "Footnote(".data (strip l) ||
    strip l == "end()".data

/-- True when one of the four start-family patterns matches the
(stripped) line; the driver treats such a line as a section start. -/
def isStartLine (t : Line) : Bool :=
  (matchStart t).isSome || (matchTri "Title(".data t).isSome ||
    (matchTri "Text(".data t).isSome || (matchTri "Footnote(".data t).isSome

/-- How much a stripped line adds to the section line counter: one for
a blank or text line, zero for a colour command. -/
def countsAs (t : Line) : Nat :=
  if t = [] then 1 else if (process_color_command t).isSome then 0 else 1

/-- Statements the driver appends for a stripped in-section line that is
neither a command start, an `end()`, nor a darken line. -/
def emittedFor (t : Line) : List String :=
  if t = [] then [EMPTY_LINE_RESULT]
  else
    match process_color_command t with
    | some c => [c]
    | none => process_text_line t

/-- A raw line that the driver processes inside a section without
changing the section state: not a darken line, not `end()`, and not a
start-family command. -/
def plainL (l : Line) : Prop :=
  startsWithL "darken(".data (strip l) = false ∧ strip l ≠ "end()".data ∧
    isStartLine (strip l) = false

instance (l : Line) : Decidable (plainL l) := by
  unfold plainL
  infer_instance

end TextToGLSL

deriving instance DecidableEq for Except

set_option maxRecDepth 20000

namespace TextToGLSL

/-- The prefix parser is sound: consuming `p` from `l` leaving `r`
means `l` is literally `p ++ r`. -/
theorem dropPrefixQ_sound : ∀ (p l r : Line), dropPrefixQ p l = some r → l = p ++ r := by
  intro p
  induction p with
  | nil =>
    intro l r h
    simp only [dropPrefixQ, Option.some.injEq] at h
    simpa using h
  | cons a as ih =>
    intro l r h
    cases l with
    | nil => simp [dropPrefixQ] at h
    | cons c cs =>
      simp only [dropPrefixQ] at h
      by_cases hc : c = a
      · rw [if_pos hc] at h
        subst hc
        simpa using ih cs r h
      · rw [if_neg hc] at h
        cases h

/-- A matched `start` line begins with the literal keyword. -/
theorem matchStart_shape {l : Line} {v : Nat × Nat × Nat} (h : matchStart l = some v) :
    ∃ r, l = "start(".data ++ r := by
  unfold matchStart at h
  cases hd : dropPrefixQ "start(".data l with
  | none => rw [hd] at h; simp at h
  | some r1 => exact ⟨r1, dropPrefixQ_sound _ _ _ hd⟩

/-- A matched `Title` / `Text` / `Footnote` line begins with its
keyword. -/
theorem matchTri_shape {kw l : Line} {v : Option Nat × Option Nat × Option Nat}
    (h : matchTri kw l = some v) : ∃ r, l = kw ++ r := by
  unfold matchTri at h
  cases hd : dropPrefixQ kw l with
  | none => rw [hd] at h; simp at h
  | some r1 => exact ⟨r1, dropPrefixQ_sound _ _ _ hd⟩

/-- A matched colour line begins with `vec3(`. -/
theorem matchColor_shape {l : Line} {v : Dec × Option Dec × Option Dec}
    (h : matchColor l = some v) : ∃ r, l = "vec3(".data ++ r := by
  unfold matchColor at h
  cases hd : dropPrefixQ "vec3(".data l with
  | none => rw [hd] at h; simp at h
  | some r1 => exact ⟨r1, dropPrefixQ_sound _ _ _ hd⟩

/-- Two lines with distinct head characters are distinct. -/
theorem cons_ne_of_head {a b : Char} (h : a ≠ b) (as bs : Line) : a :: as ≠ b :: bs := by
  intro hh
  injection hh with h1 _
  exact h h1

/-- A prefix test fails as soon as its head characters differ. -/
theorem startsWithL_false_of_head {a b : Char} (h : (a == b) = false) (as bs : Line) :
    startsWithL (a :: as) (b :: bs) = false := by
  simp [startsWithL, h]

/-- Stepping an `end()` line always succeeds, appends the section-end
statement, clears the flag and leaves `prevY` / `lineCount` untouched. -/
theorem stepLine_end (s : CState) (idx : Nat) {l : Line} (h : strip l = "end()".data) :
    stepLine s idx l =
      .ok { s with output := s.output ++ [SECTION_END_RESULT], inSection := false } := by
  simp only [stepLine, h]
  rfl

/-- Stepping a line that strips to a `darken(`-prefixed form always
raises the misplaced-darken error with the 1-based position. -/
theorem stepLine_darken (s : CState) (idx : Nat) {l : Line}
    (h : startsWithL "darken(".data (strip l) = true) :
    stepLine s idx l = .error (.misplacedDarken (idx + 1)) := by
  simp only [stepLine, h]
  rfl

/-- When no start-family pattern matches, the driver cascade yields
nothing, for any `prev_y` / `line_count`. -/
theorem startFamily_eq_none {t : Line} (h : isStartLine t = false) (p c : Nat) :
    startFamily t p c = none := by
  unfold isStartLine at h
  cases h1 : matchStart t with
  | some v => rw [h1] at h; simp at h
  | none =>
    rw [h1] at h
    cases h2 : matchTri "Title(".data t with
    | some v => rw [h2] at h; simp at h
    | none =>
      rw [h2] at h
      cases h3 : matchTri "Text(".data t with
      | some v => rw [h3] at h; simp at h
      | none =>
        rw [h3] at h
        cases h4 : matchTri "Footnote(".data t with
        | some v => rw [h4] at h; simp at h
        | none =>
          unfold startFamily
          rw [h1, h2, h3, h4]

/-- A line matched by the start-family cascade cannot be a darken line
or the `end()` literal. -/
theorem startFamily_facts {t : Line} {p c : Nat} {v : String × Nat}
    (h : startFamily t p c = some v) :
    startsWithL "darken(".data t = false ∧ t ≠ "end()".data := by
  unfold startFamily at h
  cases h1 : matchStart t with
  | some w =>
    obtain ⟨r, hr⟩ := matchStart_shape h1
    rw [hr]
    exact ⟨startsWithL_false_of_head (by decide) _ _, cons_ne_of_head (by decide) _ _⟩
  | none =>
    rw [h1] at h
    cases h2 : matchTri "Title(".data t with
    | some w =>
      obtain ⟨r, hr⟩ := matchTri_shape h2
      rw [hr]
      exact ⟨startsWithL_false_of_head (by decide) _ _, cons_ne_of_head (by decide) _ _⟩
    | none =>
      rw [h2] at h
      cases h3 : matchTri "Text(".data t with
      | some w =>
        obtain ⟨r, hr⟩ := matchTri_shape h3
        rw [hr]
        exact ⟨startsWithL_false_of_head (by decide) _ _, cons_ne_of_head (by decide) _ _⟩
      | none =>
        rw [h3] at h
        cases h4 : matchTri "Footnote(".data t with
        | some w =>
          obtain ⟨r, hr⟩ := matchTri_shape h4
          rw [hr]
          exact ⟨startsWithL_false_of_head (by decide) _ _, cons_ne_of_head (by decide) _ _⟩
        | none => rw [h4] at h; cases h

/-- Stepping a line matched by the start-family cascade always
succeeds: it appends the section-begin statement, opens the section,
stores the new section's y in `prevY` and resets the counter. -/
theorem stepLine_start {s : CState} {idx : Nat} {l : Line} {res : String} {y : Nat}
    (h : startFamily (strip l) s.prevY s.lineCount = some (res, y)) :
    stepLine s idx l = .ok ⟨s.output ++ [res], true, y, 0⟩ := by
  obtain ⟨hd, he⟩ := startFamily_facts h
  simp only [stepLine, hd, Bool.false_eq_true, if_false, if_neg he, h]

/-- A colour match makes both `process_color_command` and the colour
branch of the driver fire with the same statement. -/
theorem process_color_command_eq {l : Line} {r : Dec} {gO bO : Option Dec}
    (h : matchColor l = some (r, gO, bO)) :
    process_color_command l = some (colorStr r (gO.getD r) (bO.getD r)) := by
  unfold process_color_command
  rw [h]
  rfl

/-- Stepping an in-section line that is neither a darken line, an
`end()`, nor a start-family command: the line counter advances by
`countsAs` and the statements of `emittedFor` are appended, in order. -/
theorem stepLine_plain {s : CState} {idx : Nat} {l : Line}
    (hsec : s.inSection = true)
    (hd : startsWithL "darken(".data (strip l) = false)
    (he : strip l ≠ "end()".data)
    (hst : isStartLine (strip l) = false) :
    stepLine s idx l = .ok ⟨s.output ++ emittedFor (strip l), true, s.prevY,
                            s.lineCount + countsAs (strip l)⟩ := by
  obtain ⟨o, sec, py, lc⟩ := s
  simp only at hsec
  subst hsec
  simp only [stepLine, hd, Bool.false_eq_true, if_false, if_neg he,
             startFamily_eq_none hst]
  by_cases ht : strip l = []
  · rw [ht]
    rfl
  · cases hc : process_color_command (strip l) with
    | some c =>
      simp only [hc, emittedFor, countsAs, if_neg ht, Option.isSome_some, if_true,
                 if_pos rfl]
      rfl
    | none =>
      simp only [hc, emittedFor, countsAs, if_neg ht, Option.isSome_none,
                 Bool.false_eq_true, if_false]
      rfl

/-- Folding the driver over a run of plain in-section lines: the
section stays open, `prevY` is unchanged, the counter advances by the
number of text and blank lines, and the per-line statements are
appended in order. -/
theorem runLines_plain : ∀ (ls : List Line) (s : CState) (idx : Nat),
    s.inSection = true → (∀ l ∈ ls, plainL l) →
    runLines s idx ls =
      .ok ⟨s.output ++ (ls.map fun l => emittedFor (strip l)).flatten, true, s.prevY,
           s.lineCount + ((ls.map fun l => countsAs (strip l)).sum)⟩ := by
  intro ls
  induction ls with
  | nil =>
    intro s idx hsec _
    obtain ⟨o, sec, py, lc⟩ := s
    simp only at hsec
    subst hsec
    simp [runLines]
  | cons l rest ih =>
    intro s idx hsec hall
    obtain ⟨hd, he, hst⟩ := hall l (by simp)
    simp only [runLines, stepLine_plain hsec hd he hst]
    rw [ih _ (idx + 1) rfl (fun x hx => hall x (by simp [hx]))]
    simp [List.append_assoc, Nat.add_assoc]

/-- A matched `Footnote` line drives the whole start cascade (the three
earlier patterns cannot match a line beginning with `Footnote(`). -/
theorem startFamily_footnote {t : Line} {v : Option Nat × Option Nat × Option Nat}
    (h : matchTri "Footnote(".data t = some v) (p lc : Nat) :
    startFamily t p lc =
      some (beginTextStr (v.1.getD 2) (v.2.1.getD 30) (v.2.2.getD (p + 15 * lc + 36)),
            v.2.2.getD (p + 15 * lc + 36)) := by
  obtain ⟨a, b, c⟩ := v
  obtain ⟨r, hr⟩ := matchTri_shape h
  subst hr
  unfold startFamily
  rw [show matchStart ("Footnote(".data ++ r) = none from rfl,
      show matchTri "Title(".data ("Footnote(".data ++ r) = none from rfl,
      show matchTri "Text(".data ("Footnote(".data ++ r) = none from rfl, h]

/-- The executable out-of-range test of the embedding coincides with the
value-level condition `darkness < 0.0 or darkness > 1.0` of the
source. -/
theorem darkenOutOfRange_iff (d : Dec) :
    darkenOutOfRange d = true ↔ (d.val < 0 ∨ 1 < d.val) := by
  have hnum : (0 : ℤ) ≤ d.num := by
    unfold Dec.num
    positivity
  have hden : (0 : ℤ) < d.den := by
    unfold Dec.den
    positivity
  have hdenq : (0 : ℚ) < (d.den : ℚ) := by exact_mod_cast hden
  have hnumq : (0 : ℚ) ≤ (d.num : ℚ) := by exact_mod_cast hnum
  unfold darkenOutOfRange
  simp only [Bool.or_eq_true, decide_eq_true_eq]
  unfold Dec.val
  constructor
  · rintro (h | h)
    · exact absurd h (not_lt.mpr hnum)
    · right
      rw [one_lt_div hdenq]
      exact_mod_cast h
  · rintro (h | h)
    · exact absurd h (not_lt.mpr (div_nonneg hnumq hdenq.le))
    · right
      rw [one_lt_div hdenq] at h
      exact_mod_cast h

/-- A validation failure identifies the first line holding an invalid
character: all earlier lines are clean, the reported number is the
1-based position from `idx`, and the reported character is the line's
first invalid one. -/
theorem validate_from_error : ∀ (ls : List Line) (idx n : Nat) (c : Char),
    validate_from idx ls = .error (.illegalChar n c) →
    ∃ i li, ls.get? i = some li ∧ n = idx + i ∧ firstInvalid li = some c ∧
      ∀ j lj, j < i → ls.get? j = some lj → firstInvalid lj = none := by
  intro ls
  induction ls with
  | nil => intro idx n c h; simp [validate_from] at h
  | cons l rest ih =>
    intro idx n c h
    unfold validate_from at h
    cases hf : firstInvalid l with
    | some c0 =>
      rw [hf] at h
      injection h with h1
      injection h1 with hn hc
      refine ⟨0, l, rfl, by omega, ?_, ?_⟩
      · rw [hf, hc]
      · intro j lj hj
        omega
    | none =>
      rw [hf] at h
      obtain ⟨i, li, h1, h2, h3, h4⟩ := ih (idx + 1) n c h
      refine ⟨i + 1, li, by simpa using h1, by omega, h3, ?_⟩
      intro j lj hj hget
      cases j with
      | zero =>
        simp only [List.get?] at hget
        injection hget with hlj
        rw [← hlj]
        exact hf
      | succ j2 =>
        exact h4 j2 lj (by omega) (by simpa using hget)

/-- The only errors the driver loop itself can raise are the
misplaced-darken and content-outside-a-section errors, both carrying
the 1-based position; in particular no malformed-command error arises
from the loop. -/
theorem stepLine_error_cases (s : CState) (idx : Nat) (l : Line) (e : Err)
    (h : stepLine s idx l = .error e) :
    e = .misplacedDarken (idx + 1) ∨ e = .textOutsideSection (idx + 1) := by
  simp only [stepLine] at h
  repeat' split at h
  all_goals
    first
      | (exact Or.inl (by injection h with h1; exact h1.symm))
      | (exact Or.inr (by injection h with h1; exact h1.symm))
      | (exact absurd h (by simp))

/-- If the loop completes with the section flag still set, the whole
conversion fails with the unclosed-section error. -/
theorem parse_core_unclosed {lines : List Line} {out0 : List String} {rest : List Line}
    {s' : CState}
    (hv : validate_text lines = .ok ())
    (hdp : darkenPhase lines = .ok (out0, rest))
    (hr : runLines ⟨out0, false, 0, 0⟩ 0 rest = .ok s')
    (hsec : s'.inSection = true) :
    parse_core lines = .error .unclosedSection := by
  simp only [parse_core, hv, hdp, hr, hsec, eq_self_iff_true, if_true]

/-- Stepping an in-section line matched by the colour pattern appends
exactly the colour statement, with missing `g` and `b` groups falling
back to the first argument `r`, and leaves the rest of the state
unchanged. -/
theorem stepLine_color {s : CState} {idx : Nat} {l : Line} {r : Dec} {gO bO : Option Dec}
    (hsec : s.inSection = true) (h : matchColor (strip l) = some (r, gO, bO)) :
    stepLine s idx l =
      .ok { s with output := s.output ++ [colorStr r (gO.getD r) (bO.getD r)] } := by
  obtain ⟨r0, hr⟩ := matchColor_shape h
  have hd : startsWithL "darken(".data (strip l) = false := by
    rw [hr]
    exact startsWithL_false_of_head (by decide) _ _
  have he : strip l ≠ "end()".data := by
    rw [hr]
    exact cons_ne_of_head (by decide) _ _
  have hsf : startFamily (strip l) s.prevY s.lineCount = none := by
    rw [hr]
    unfold startFamily
    rw [show matchStart ("vec3(".data ++ r0) = none from rfl,
        show matchTri "Title(".data ("vec3(".data ++ r0) = none from rfl,
        show matchTri "Text(".data ("vec3(".data ++ r0) = none from rfl,
        show matchTri "Footnote(".data ("vec3(".data ++ r0) = none from rfl]
  have hpc := process_color_command_eq h
  simp only [stepLine, hd, Bool.false_eq_true, if_false, if_neg he, hsf, hpc, hsec,
             eq_self_iff_true, if_true]

/-- Claim C1, counterexample: inside an open section, `vec3(1, 0)` is
emitted with third component `1.0` — the first argument `r` — not the
`0.0` the claim's fill-from-`g` rule predicts. -/
theorem C1_color_fill_cex :
    parse_and_convert "start(1, 2, 3)\nvec3(1, 0)\nend()" =
      .ok "beginTextM(1, vec2(2, 3));\n    text.fgCol = vec4(1.0, 0.0, 1.0, 1.0);\nendText(color.rgb);"
    ∧ process_color_command "vec3(1, 0)".data = some "    text.fgCol = vec4(1.0, 0.0, 1.0, 1.0);"
    ∧ ("    text.fgCol = vec4(1.0, 0.0, 1.0, 1.0);" : String) ≠
        "    text.fgCol = vec4(1.0, 0.0, 0.0, 1.0);" :=
  ⟨by decide, by decide, by decide⟩

/-- Claim C1, amended: for every vec3 colour command inside an open
section, missing trailing arguments are filled from the FIRST argument:
`vec3(r)` yields `(r, r, r)`, `vec3(r, g)` yields `(r, g, r)` (the third
component copies `r`, not the resolved `g`), and `vec3(r, g, b)` yields
`(r, g, b)`; the emitted statement is the colour template on those
floats, so `vec3(1)` emits `vec4(1.0, 1.0, 1.0, 1.0)` and `vec3(1,0,0)`
emits `vec4(1.0, 0.0, 0.0, 1.0)`. -/
theorem C1_color_fill :
    (∀ (l : Line) (r : Dec) (gO bO : Option Dec), matchColor l = some (r, gO, bO) →
      process_color_command l = some (colorStr r (gO.getD r) (bO.getD r)))
    ∧ (∀ (s : CState) (idx : Nat) (l : Line) (r : Dec) (gO bO : Option Dec),
        s.inSection = true → matchColor (strip l) = some (r, gO, bO) →
        stepLine s idx l =
          .ok { s with output := s.output ++ [colorStr r (gO.getD r) (bO.getD r)] })
    ∧ process_color_command "vec3(1)".data = some "    text.fgCol = vec4(1.0, 1.0, 1.0, 1.0);"
    ∧ process_color_command "vec3(1,0,0)".data =
        some "    text.fgCol = vec4(1.0, 0.0, 0.0, 1.0);" :=
  ⟨fun _ _ _ _ h => process_color_command_eq h,
   fun _ _ _ _ _ _ hsec h => stepLine_color hsec h,
   by decide, by decide⟩

/-- Witness for C1: the amended fill rule evaluated at `vec3(2, 3)`. -/
theorem C1_color_fill_witness :
    process_color_command "vec3(2, 3)".data = some (colorStr ⟨2, []⟩ ⟨3, []⟩ ⟨2, []⟩) :=
  C1_color_fill.1 "vec3(2, 3)".data ⟨2, []⟩ (some ⟨3, []⟩) none (by decide)

/-- Claim C2, counterexample: the source classifies command lines on
the raw line, not its trimmed form — the line made of a space followed
by `end()` trims to the exact `end()` literal, yet the source does not
classify it as a command line. -/
theorem C2_validator_cex :
    is_command_line " end()".data = false ∧ specIsCommandLine " end()".data = true :=
  ⟨by decide, by decide⟩

/-- Claim C2, amended: the Validator classifies a line as a command
line from the RAW (untrimmed) line; because both parentheses are
themselves in the special-character table, the command-line flag never
affects acceptance — a character is accepted exactly when it is
alphanumeric or in the table — and on the first violating character
validation fails with an IllegalCharacter error carrying the 1-based
line number and the offending character (all earlier lines clean, and
the reported character the first invalid one of its line). -/
theorem C2_validator :
    (∀ (c : Char) (b : Bool),
      is_valid_char c b = (c.isAlphanum || (CHAR_TO_SPECIAL.lookup c).isSome))
    ∧ (∀ (lines : List Line) (n : Nat) (c : Char),
        validate_text lines = .error (.illegalChar n c) →
        ∃ i li, lines.get? i = some li ∧ n = i + 1 ∧ firstInvalid li = some c ∧
          ∀ j lj, j < i → lines.get? j = some lj → firstInvalid lj = none) := by
  constructor
  · intro c b
    cases b with
    | false => simp [is_valid_char]
    | true =>
      by_cases h1 : c = '('
      · subst h1
        decide
      · by_cases h2 : c = ')'
        · subst h2
          decide
        · have hc1 : (c == '(') = false := by
            simp [h1]
          have hc2 : (c == ')') = false := by
            simp [h2]
          simp [is_valid_char, hc1, hc2]
  · intro lines n c h
    obtain ⟨i, li, h1, h2, h3, h4⟩ := validate_from_error lines 1 n c h
    exact ⟨i, li, h1, by omega, h3, h4⟩

/-- Witness for C2: the flag-free acceptance rule at a semicolon, and
the first-violation property on a concrete two-line document whose
second line holds the illegal semicolon. -/
theorem C2_validator_witness :
    is_valid_char ';' true = (Char.isAlphanum ';' || (CHAR_TO_SPECIAL.lookup ';').isSome)
    ∧ ∃ i li, [("ok".data : Line), "a;b".data].get? i = some li ∧ 2 = i + 1 ∧
        firstInvalid li = some ';' ∧
        ∀ j lj, j < i → [("ok".data : Line), "a;b".data].get? j = some lj →
          firstInvalid lj = none :=
  ⟨C2_validator.1 ';' true,
   C2_validator.2 ["ok".data, "a;b".data] 2 ';' (by decide)⟩

/-- Claim C3, counterexample: `prevY` is persisted by a section-START
transition — stepping `start(2, 0, 80)` from the initial state (where
no section was ever closed) already sets it to 80 — and the effect is
observable: a `Footnote()` issued while that very section is still open
is positioned from the OPEN section's data (y = 80 + 15*1 + 36 = 131),
not from a closed one as the claim requires. -/
theorem C3_lastClosed_cex :
    initState.prevY = 0
    ∧ stepLine initState 0 "start(2, 0, 80)".data =
        .ok ⟨["beginTextM(2, vec2(0, 80));"], true, 80, 0⟩
    ∧ (80 : Nat) ≠ 0
    ∧ parse_and_convert "start(2, 0, 80)\nA\nFootnote()\nend()" =
        .ok "beginTextM(2, vec2(0, 80));\n    printString((_A));\n    printLine();\nbeginTextM(2, vec2(30, 131));\nendText(color.rgb);" :=
  ⟨by decide, by decide, by decide, by decide⟩

/-- Claim C3, amended: the persisted `prevY` / `lineCount` pair is
written by the section-START transition — an accepted start-family
command stores the new section's y and resets the counter to 0 — while
the SectionEnd transition leaves both fields untouched; hence in Idle
states they describe the most recently opened section, which coincides
with the most recently closed one exactly when an `end()` has been
processed since. -/
theorem C3_lastClosed :
    (∀ (s : CState) (idx : Nat) (l : Line), strip l = "end()".data →
      stepLine s idx l =
        .ok { s with output := s.output ++ [SECTION_END_RESULT], inSection := false })
    ∧ (∀ (s : CState) (idx : Nat) (l : Line) (res : String) (y : Nat),
        startFamily (strip l) s.prevY s.lineCount = some (res, y) →
        stepLine s idx l = .ok ⟨s.output ++ [res], true, y, 0⟩) :=
  ⟨fun s idx _ h => stepLine_end s idx h,
   fun _ _ _ _ _ h => stepLine_start h⟩

/-- Witness for C3: an `end()` step preserving `prevY = 7`,
`lineCount = 3`, and a `start(1, 2, 9)` step overwriting `prevY` with 9
and resetting the counter. -/
theorem C3_lastClosed_witness :
    stepLine ⟨["x"], true, 7, 3⟩ 0 "end()".data =
      .ok ⟨["x", SECTION_END_RESULT], false, 7, 3⟩
    ∧ stepLine ⟨[], false, 7, 3⟩ 0 "start(1, 2, 9)".data =
      .ok ⟨[beginTextStr 1 2 9], true, 9, 0⟩ :=
  ⟨C3_lastClosed.1 ⟨["x"], true, 7, 3⟩ 0 "end()".data (by decide),
   C3_lastClosed.2 ⟨[], false, 7, 3⟩ 0 "start(1, 2, 9)".data (beginTextStr 1 2 9) 9 (by decide)⟩

/-- Claim C4 (confirmed): whenever a Footnote command omits its y
argument, the y of the emitted section-begin statement equals
`prevY + 15 * lineCount + 36` on the state at that point, with size
and x defaulting to 2 and 30 when omitted; in particular `Footnote()`
immediately after a closed section with y = 30 and 3 text/blank lines
emits `y = 30 + 15*3 + 36 = 111`. -/
theorem C4_footnote_y :
    (∀ (l : Line) (a b : Option Nat) (py lc : Nat),
      matchTri "Footnote(".data l = some (a, b, none) →
      process_footnote_command l py lc =
        some (beginTextStr (a.getD 2) (b.getD 30) (py + 15 * lc + 36)))
    ∧ (∀ (s : CState) (idx : Nat) (l : Line) (a b : Option Nat),
        matchTri "Footnote(".data (strip l) = some (a, b, none) →
        stepLine s idx l =
          .ok ⟨s.output ++ [beginTextStr (a.getD 2) (b.getD 30) (s.prevY + 15 * s.lineCount + 36)],
               true, s.prevY + 15 * s.lineCount + 36, 0⟩)
    ∧ parse_and_convert "start(4, 20, 30)\nA\nB\n\nend()\nFootnote()\nC\nend()" =
        .ok "beginTextM(4, vec2(20, 30));\n    printString((_A));\n    printLine();\n    printString((_B));\n    printLine();\n    printLine();\nendText(color.rgb);\nbeginTextM(2, vec2(30, 111));\n    printString((_C));\n    printLine();\nendText(color.rgb);" := by
  refine ⟨?_, ?_, by decide⟩
  · intro l a b py lc h
    unfold process_footnote_command
    rw [h]
    rfl
  · intro s idx l a b h
    exact stepLine_start (startFamily_footnote h s.prevY s.lineCount)

/-- Witness for C4: the computed y at `prevY = 30`, `lineCount = 3` is
111. -/
theorem C4_footnote_y_witness :
    process_footnote_command "Footnote()".data 30 3 = some (beginTextStr 2 30 111) :=
  C4_footnote_y.1 "Footnote()".data none none 30 3 (by decide)

/-- Claim C5, counterexample: a document whose second line is a second
`start(...)` while the first section is still open is accepted without
error — two SectionStarts, one SectionEnd — so a start-family command
IS accepted while a section is already open. -/
theorem C5_nesting_cex :
    runLines initState 0 ["start(1, 2, 3)".data] = .ok ⟨["beginTextM(1, vec2(2, 3));"], true, 3, 0⟩
    ∧ (matchStart "start(4, 5, 6)".data).isSome = true
    ∧ parse_and_convert "start(1, 2, 3)\nstart(4, 5, 6)\nend()" =
        .ok "beginTextM(1, vec2(2, 3));\nbeginTextM(4, vec2(5, 6));\nendText(color.rgb);" :=
  ⟨by decide, by decide, by decide⟩

/-- Claim C5, amended: the compiler performs no nesting check — a
start-family command is accepted in any state, including while a
section is open (the open section is silently superseded with no
emitted end) — and the only matching constraint enforced is that a
section still open at end of input fails with the unclosed-section
error. -/
theorem C5_nesting :
    (∀ (s : CState) (idx : Nat) (l : Line) (res : String) (y : Nat),
      s.inSection = true →
      startFamily (strip l) s.prevY s.lineCount = some (res, y) →
      stepLine s idx l = .ok ⟨s.output ++ [res], true, y, 0⟩)
    ∧ (∀ (lines : List Line) (out0 : List String) (rest : List Line) (s' : CState),
        validate_text lines = .ok () → darkenPhase lines = .ok (out0, rest) →
        runLines ⟨out0, false, 0, 0⟩ 0 rest = .ok s' → s'.inSection = true →
        parse_core lines = .error .unclosedSection) :=
  ⟨fun _ _ _ _ _ _ h => stepLine_start h,
   fun _ _ _ _ hv hdp hr hsec => parse_core_unclosed hv hdp hr hsec⟩

/-- Witness for C5: a `Title()` accepted while a section is open. -/
theorem C5_nesting_witness :
    stepLine ⟨["a"], true, 3, 1⟩ 0 "Title()".data =
      .ok ⟨["a", beginTextStr 8 6 10], true, 10, 0⟩ :=
  C5_nesting.1 ⟨["a"], true, 3, 1⟩ 0 "Title()".data (beginTextStr 8 6 10) 10 rfl (by decide)

/-- Claim C6 (confirmed): inside a section, a non-empty text line
appends exactly two statements (one printString followed by one
printLine) and advances the counter by one; a blank line appends
exactly one printLine and advances the counter by one; a colour command
appends exactly one statement and leaves the counter unchanged; and
over any run of such lines the counter advances by exactly the number
of text and blank lines. -/
theorem C6_line_counts :
    (∀ (s : CState) (idx : Nat) (l : Line), s.inSection = true → plainL l →
      strip l ≠ [] → process_color_command (strip l) = none →
      stepLine s idx l = .ok ⟨s.output ++ [printStringStr (strip l), EMPTY_LINE_RESULT],
                              true, s.prevY, s.lineCount + 1⟩)
    ∧ (∀ (s : CState) (idx : Nat) (l : Line), s.inSection = true → plainL l →
        strip l = [] →
        stepLine s idx l = .ok ⟨s.output ++ [EMPTY_LINE_RESULT], true, s.prevY, s.lineCount + 1⟩)
    ∧ (∀ (s : CState) (idx : Nat) (l : Line) (c : String), s.inSection = true →
        plainL l → process_color_command (strip l) = some c →
        stepLine s idx l = .ok ⟨s.output ++ [c], true, s.prevY, s.lineCount⟩)
    ∧ (∀ (ls : List Line) (s : CState) (idx : Nat),
        s.inSection = true → (∀ l ∈ ls, plainL l) →
        runLines s idx ls =
          .ok ⟨s.output ++ (ls.map fun l => emittedFor (strip l)).flatten, true, s.prevY,
               s.lineCount + ((ls.map fun l => countsAs (strip l)).sum)⟩) := by
  refine ⟨?_, ?_, ?_, runLines_plain⟩
  · intro s idx l hsec hp ht hc
    obtain ⟨hd, he, hst⟩ := hp
    have h1 : emittedFor (strip l) = [printStringStr (strip l), EMPTY_LINE_RESULT] := by
      simp only [emittedFor, if_neg ht, hc, process_text_line]
    have h2 : countsAs (strip l) = 1 := by
      simp only [countsAs, if_neg ht, hc, Option.isSome_none, Bool.false_eq_true, if_false]
    rw [stepLine_plain hsec hd he hst, h1, h2]
  · intro s idx l hsec hp ht
    obtain ⟨hd, he, hst⟩ := hp
    have h1 : emittedFor (strip l) = [EMPTY_LINE_RESULT] := by
      simp only [emittedFor, ht, eq_self_iff_true, if_true]
    have h2 : countsAs (strip l) = 1 := by
      simp only [countsAs, ht, eq_self_iff_true, if_true]
    rw [stepLine_plain hsec hd he hst, h1, h2]
  · intro s idx l c hsec hp hc
    obtain ⟨hd, he, hst⟩ := hp
    have ht : strip l ≠ [] := by
      unfold process_color_command at hc
      cases hmc : matchColor (strip l) with
      | none =>
        rw [hmc] at hc
        cases hc
      | some v =>
        obtain ⟨r0, hr⟩ := matchColor_shape hmc
        rw [hr]
        exact List.cons_ne_nil _ _
    have h1 : emittedFor (strip l) = [c] := by
      simp only [emittedFor, if_neg ht, hc]
    have h2 : countsAs (strip l) = 0 := by
      simp only [countsAs, if_neg ht, hc, Option.isSome_some, eq_self_iff_true, if_true]
    rw [stepLine_plain hsec hd he hst, h1, h2]
    rfl

/-- Witness for C6: running a text line, a blank line and a colour line
inside a section appends 2 + 1 + 1 statements and advances the counter
by exactly 2. -/
theorem C6_line_counts_witness :
    runLines ⟨[], true, 5, 0⟩ 0 ["Hi".data, "".data, "vec3(1)".data] =
      .ok ⟨["    printString((_H, _i));", "    printLine();", "    printLine();",
            "    text.fgCol = vec4(1.0, 1.0, 1.0, 1.0);"], true, 5, 2⟩ :=
  C6_line_counts.2.2.2 ["Hi".data, "".data, "vec3(1)".data] ⟨[], true, 5, 0⟩ 0 rfl (by decide)

/-- Claim C7 (confirmed): the darken command takes an optional single
float argument range-checked to the closed interval from 0.0 to 1.0:
`darken()` emits the mix statement with the fixed default 0.65, a
matched `darken(v)` with in-range v emits it with v, an out-of-range
value fails with the range error, and a darken command on any line the
driver loop reaches (i.e. any line other than a first-line darken)
fails with the misplaced-darken structural error. -/
theorem C7_darken :
    parse_and_convert "darken()" = .ok "color.rgb = mix(color.rgb, vec3(0.0), 0.65);"
    ∧ (∀ (l : Line) (d : Dec), matchDarken (strip l) = some d → ¬(d.val < 0 ∨ 1 < d.val) →
        process_darken_command l = .ok (darkenStr d))
    ∧ (∀ (l : Line) (d : Dec), matchDarken (strip l) = some d → (d.val < 0 ∨ 1 < d.val) →
        process_darken_command l = .error (.darkenRange d))
    ∧ (∀ (s : CState) (idx : Nat) (l : Line),
        startsWithL "darken(".data (strip l) = true →
        stepLine s idx l = .error (.misplacedDarken (idx + 1)))
    ∧ parse_and_convert "darken(1.5)" = .error (.darkenRange ⟨1, [5]⟩)
    ∧ parse_and_convert "start(1, 2, 3)\ndarken(0.5)\nend()" = .error (.misplacedDarken 2) := by
  refine ⟨by decide, ?_, ?_, fun s idx l h => stepLine_darken s idx h, by decide, by decide⟩
  · intro l d h hrange
    have hb : darkenOutOfRange d = false := by
      rw [← Bool.not_eq_true, darkenOutOfRange_iff]
      exact hrange
    unfold process_darken_command
    simp only [h, hb, Bool.false_eq_true, if_false]
  · intro l d h hrange
    have hb : darkenOutOfRange d = true := (darkenOutOfRange_iff d).mpr hrange
    unfold process_darken_command
    simp only [h, hb, eq_self_iff_true, if_true]

/-- Witness for C7: `darken(0.5)` is accepted with value 0.5 and
`darken(2.5)` is rejected with the range error. -/
theorem C7_darken_witness :
    process_darken_command "darken(0.5)".data = .ok (darkenStr ⟨0, [5]⟩)
    ∧ process_darken_command "darken(2.5)".data = .error (.darkenRange ⟨2, [5]⟩) :=
  ⟨C7_darken.2.1 "darken(0.5)".data ⟨0, [5]⟩ (by decide)
     (by norm_num [Dec.val, Dec.num, Dec.den, digitsVal, List.foldl, List.length]),
   C7_darken.2.2.1 "darken(2.5)".data ⟨2, [5]⟩ (by decide)
     (Or.inr (by norm_num [Dec.val, Dec.num, Dec.den, digitsVal, List.foldl, List.length]))⟩

/-- Claim C8 (confirmed): reaching end of input with a section still
open fails with the unclosed-section structural error, and an erroring
conversion returns no output at all — the result is an error value,
never a partial program. -/
theorem C8_unclosed :
    (∀ (lines : List Line) (out0 : List String) (rest : List Line) (s' : CState),
      validate_text lines = .ok () → darkenPhase lines = .ok (out0, rest) →
      runLines ⟨out0, false, 0, 0⟩ 0 rest = .ok s' → s'.inSection = true →
      parse_core lines = .error .unclosedSection)
    ∧ parse_and_convert "start(1, 2, 3)\nhello" = .error .unclosedSection
    ∧ (∀ (input : String) (e : Err) (out : String),
        parse_and_convert input = .error e → parse_and_convert input ≠ .ok out) := by
  refine ⟨fun _ _ _ _ hv hdp hr hsec => parse_core_unclosed hv hdp hr hsec, by decide, ?_⟩
  intro input e out he hok
  rw [he] at hok
  cases hok

/-- Witness for C8: the unclosed-section theorem applied to the
concrete two-line document with an unmatched `start`. -/
theorem C8_unclosed_witness :
    parse_core ["start(1, 2, 3)".data, "hello".data] = .error .unclosedSection :=
  C8_unclosed.1 ["start(1, 2, 3)".data, "hello".data] []
    ["start(1, 2, 3)".data, "hello".data]
    ⟨["beginTextM(1, vec2(2, 3));", "    printString((_h, _e, _l, _l, _o));", "    printLine();"],
     true, 3, 1⟩
    (by decide) (by decide) (by decide) rfl

/-- Claim C9 (confirmed): an `end()` line while no section is open is
not an error — it is accepted, emits the section-end statement, and
leaves the state Idle; a document consisting of the single line
`end()` compiles to exactly that statement. -/
theorem C9_end_idle :
    parse_and_convert "end()" = .ok "endText(color.rgb);"
    ∧ (∀ (s : CState) (idx : Nat) (l : Line), s.inSection = false → strip l = "end()".data →
        stepLine s idx l = .ok ⟨s.output ++ [SECTION_END_RESULT], false, s.prevY, s.lineCount⟩) := by
  refine ⟨by decide, ?_⟩
  intro s idx l _ h
  rw [stepLine_end s idx h]

/-- Witness for C9: the idle `end()` step at a concrete state. -/
theorem C9_end_idle_witness :
    stepLine ⟨[], false, 4, 2⟩ 1 "end()".data = .ok ⟨[SECTION_END_RESULT], false, 4, 2⟩ :=
  C9_end_idle.2 ⟨[], false, 4, 2⟩ 1 "end()".data rfl (by decide)

/-- Claim C10, counterexample: a darken line that does not match the
darken grammar DOES fail with the malformed-command error — the
single-line document `darken(x)` (no section open) fails with the
darken-format error, not the content-outside-a-section error the claim
predicts — and an in-section `darken(x)` fails with misplaced-darken
instead of being encoded as literal text. -/
theorem C10_malformed_cex :
    parse_and_convert "darken(x)" = .error .darkenFormat
    ∧ parse_and_convert "start(1, 2, 3)\ndarken(x)\nend()" = .error (.misplacedDarken 2)
    ∧ Err.darkenFormat ≠ Err.textOutsideSection 1 :=
  ⟨by decide, by decide, by decide⟩

/-- Claim C10, amended: a line that resembles a command but does not
match its command's grammar never fails with a malformed-command error
UNLESS it is a darken line: a first line stripping to a
`darken(`-prefixed form that matches neither `darken(value)` nor
`darken()` fails with the malformed darken-format error, and any
`darken(`-prefixed line reached by the driver loop fails with the
misplaced-darken structural error regardless of grammar; every other
non-matching line — such as `start(1, 2)` with only two arguments — is,
if a section is open, treated as literal text and encoded character by
character into a printString statement plus a printLine, and, if no
section is open, fails with the content-outside-a-section structural
error; the driver loop itself never raises a malformed-command
error. -/
theorem C10_malformed :
    (∀ (l0 : Line) (rest : List Line),
      validate_text (l0 :: rest) = .ok () →
      startsWithL "darken(".data (strip l0) = true →
      matchDarken (strip l0) = none → strip l0 ≠ "darken()".data →
      parse_core (l0 :: rest) = .error .darkenFormat)
    ∧ (∀ (s : CState) (idx : Nat) (l : Line),
        startsWithL "darken(".data (strip l) = true →
        stepLine s idx l = .error (.misplacedDarken (idx + 1)))
    ∧ (∀ (l0 : Line) (rest : List Line),
        startsWithL "darken(".data (strip l0) = false →
        darkenPhase (l0 :: rest) = .ok ([], l0 :: rest))
    ∧ matchStart "start(1, 2)".data = none
    ∧ (∀ (s : CState) (idx : Nat) (l : Line), s.inSection = true →
        startsWithL "darken(".data (strip l) = false → strip l ≠ "end()".data →
        isStartLine (strip l) = false → process_color_command (strip l) = none →
        strip l ≠ [] →
        stepLine s idx l = .ok ⟨s.output ++ [printStringStr (strip l), EMPTY_LINE_RESULT],
                                true, s.prevY, s.lineCount + 1⟩)
    ∧ (∀ (s : CState) (idx : Nat) (l : Line), s.inSection = false →
        startsWithL "darken(".data (strip l) = false → strip l ≠ "end()".data →
        isStartLine (strip l) = false → strip l ≠ [] →
        stepLine s idx l = .error (.textOutsideSection (idx + 1)))
    ∧ stepLine ⟨[], true, 0, 0⟩ 0 "start(1, 2)".data =
        .ok ⟨["    printString((_s, _t, _a, _r, _t, _opprn, _1, _comma, _space, _2, _clprn));",
              "    printLine();"], true, 0, 1⟩
    ∧ stepLine ⟨[], false, 0, 0⟩ 0 "start(1, 2)".data = .error (.textOutsideSection 1)
    ∧ (∀ (s : CState) (idx : Nat) (l : Line) (e : Err),
        stepLine s idx l = .error e →
        e = .misplacedDarken (idx + 1) ∨ e = .textOutsideSection (idx + 1)) := by
  refine ⟨?_, fun s idx l h => stepLine_darken s idx h, ?_, by decide, ?_, ?_,
          by decide, by decide, stepLine_error_cases⟩
  · intro l0 rest hv hpre hmd hne
    have hp : process_darken_command l0 = .error .darkenFormat := by
      unfold process_darken_command
      simp only [hmd, if_neg hne]
    simp only [parse_core, hv, darkenPhase, hpre, eq_self_iff_true, if_true, hp]
  · intro l0 rest h
    simp only [darkenPhase, h, Bool.false_eq_true, if_false]
  · intro s idx l hsec hd he hst hc ht
    have h1 : emittedFor (strip l) = [printStringStr (strip l), EMPTY_LINE_RESULT] := by
      simp only [emittedFor, if_neg ht, hc, process_text_line]
    have h2 : countsAs (strip l) = 1 := by
      simp only [countsAs, if_neg ht, hc, Option.isSome_none, Bool.false_eq_true, if_false]
    rw [stepLine_plain hsec hd he hst, h1, h2]
  · intro s idx l hsec hd he hst ht
    simp only [stepLine, hd, Bool.false_eq_true, if_false, if_neg he,
               startFamily_eq_none hst]
    cases hc : process_color_command (strip l) with
    | some c => simp only [hc, hsec, Bool.false_eq_true, if_false]
    | none => simp only [hc, hsec, Bool.false_eq_true, if_false, if_neg ht]

/-- Witness for C10: the malformed first-line darken evaluated on the
concrete document `darken(x)`, and the loop error classification at a
concrete out-of-section text error. -/
theorem C10_malformed_witness :
    parse_core ["darken(x)".data] = .error .darkenFormat
    ∧ (Err.textOutsideSection 6 = .misplacedDarken 6 ∨
        Err.textOutsideSection 6 = .textOutsideSection 6) :=
  ⟨C10_malformed.1 "darken(x)".data [] (by decide) (by decide) (by decide) (by decide),
   C10_malformed.2.2.2.2.2.2.2.2 ⟨[], false, 0, 0⟩ 5 "x".data (.textOutsideSection 6) (by decide)⟩

end TextToGLSL
